import Mathlib

/-!
Verification development for the n2n supernode (src/sn.c).

The data model and the operations of sn.c are embedded shallowly:
machine bytes become Nat, byte buffers become List Nat, the global
n2n_sn_t state becomes an explicit record threaded through every
handler, and each send performed through a socket becomes an element
of an explicit send list in the result.  Functions of the n2n library
that are not part of src/sn.c (the wire codec, find_peer_by_mac,
sock_equal, is_multi_broadcast_mac) are modelled from the
specification and carry a doc comment saying so.
-/

namespace N2NSN

/-- Socket address, from the spec data model: tagged union over address
family with an IPv4 variant carrying a 4-byte address and a 16-bit port
held in host byte order internally (n2n_sock_t). -/
structure n2n_sock_t where
  family : Nat
  port : Nat
  addr : List Nat
  deriving DecidableEq, Repr

/-- Address family constant AF_INET. -/
def AF_INET : Nat := 2

/-- The all-zero socket used by memset in sn.c. -/
def zero_sock : n2n_sock_t := { family := 0, port := 0, addr := [0, 0, 0, 0] }

/-- Sender address as seen by recvfrom (struct sockaddr_in), with the
port already converted to host order (the ntohs conversion in sn.c is a
byte-order representation detail). -/
structure sockaddr_in where
  sin_addr : List Nat
  sin_port : Nat
  deriving DecidableEq, Repr

/-- Peer record of the edge directory (struct peer_info). -/
structure peer_info where
  community_name : List Nat
  mac_addr : List Nat
  sock : n2n_sock_t
  last_seen : Nat
  deriving DecidableEq, Repr

/-- Protocol counters (struct sn_stats). -/
structure sn_stats where
  errors : Nat
  reg_super : Nat
  reg_super_nak : Nat
  fwd : Nat
  broadcast : Nat
  last_fwd : Nat
  last_reg_super : Nat
  deriving DecidableEq, Repr

/-- The supernode state relevant to the edge-facing dispatcher
(fields of struct n2n_sn: stats, edges, start_time). -/
structure sn_state where
  stats : sn_stats
  edges : List peer_info
  start_time : Nat
  deriving DecidableEq, Repr

/-- One send performed via the edge socket: destination and the exact
bytes handed to sendto. -/
structure send_rec where
  dest : n2n_sock_t
  buf : List Nat
  deriving DecidableEq, Repr

/-- Result of a handler that mutates the counters and emits sends
(try_forward / try_broadcast return int in C). -/
structure io_result where
  stats : sn_stats
  sends : List send_rec
  ret : Int
  deriving DecidableEq, Repr

/-- Result of process_udp: new state, sends emitted, return code. -/
structure udp_result where
  state : sn_state
  sends : List send_rec
  ret : Int
  deriving DecidableEq, Repr

/-- Flag bit FROM_SUPERNODE.  Modelled from the spec: the header carries
a 2-byte flags field with bits FROM_SUPERNODE and SOCKET; the concrete
bit positions are not in src/, two distinct bits are fixed here. -/
def N2N_FLAGS_FROM_SUPERNODE : Nat := 32

/-- Flag bit SOCKET.  Modelled from the spec (see
N2N_FLAGS_FROM_SUPERNODE). -/
def N2N_FLAGS_SOCKET : Nat := 64

/-- Packet code REGISTER.  Modelled from the spec: packet codes handled
are PACKET, REGISTER, REGISTER_ACK, REGISTER_SUPER, REGISTER_SUPER_ACK;
the numeric values are not in src/, distinct values are fixed here. -/
def MSG_TYPE_REGISTER : Nat := 1

/-- Packet code PACKET.  Modelled from the spec (see MSG_TYPE_REGISTER). -/
def MSG_TYPE_PACKET : Nat := 3

/-- Packet code REGISTER_ACK.  Modelled from the spec (see
MSG_TYPE_REGISTER). -/
def MSG_TYPE_REGISTER_ACK : Nat := 4

/-- Packet code REGISTER_SUPER.  Modelled from the spec (see
MSG_TYPE_REGISTER). -/
def MSG_TYPE_REGISTER_SUPER : Nat := 5

/-- Packet code REGISTER_SUPER_ACK.  Modelled from the spec (see
MSG_TYPE_REGISTER). -/
def MSG_TYPE_REGISTER_SUPER_ACK : Nat := 7

/-- Common header of every edge-protocol frame (n2n_common_t). -/
structure n2n_common_t where
  version : Nat
  ttl : Nat
  pc : Nat
  flags : Nat
  community : List Nat
  deriving DecidableEq, Repr

/-- PACKET payload header (n2n_PACKET_t). -/
structure n2n_PACKET_t where
  srcMac : List Nat
  dstMac : List Nat
  sock : n2n_sock_t
  deriving DecidableEq, Repr

/-- REGISTER payload header (n2n_REGISTER_t). -/
structure n2n_REGISTER_t where
  cookie : List Nat
  srcMac : List Nat
  dstMac : List Nat
  sock : n2n_sock_t
  deriving DecidableEq, Repr

/-- REGISTER_SUPER payload header (n2n_REGISTER_SUPER_t). -/
structure n2n_REGISTER_SUPER_t where
  cookie : List Nat
  edgeMac : List Nat
  deriving DecidableEq, Repr

/-- REGISTER_SUPER_ACK payload (n2n_REGISTER_SUPER_ACK_t). -/
structure n2n_REGISTER_SUPER_ACK_t where
  cookie : List Nat
  edgeMac : List Nat
  lifetime : Nat
  sock : n2n_sock_t
  num_sn : Nat
  sn_bak : n2n_sock_t
  deriving DecidableEq, Repr

/-- Contiguous byte slice of a buffer: len bytes starting at i. -/
def slice (buf : List Nat) (i len : Nat) : List Nat :=
  (buf.drop i).take len

/-- Big-endian value of a byte list. -/
def beVal (l : List Nat) : Nat :=
  l.foldl (fun a b => a * 256 + b) 0

/-- Pad or truncate a byte list to exactly n bytes. -/
def padTo (n : Nat) (l : List Nat) : List Nat :=
  (l ++ List.replicate n 0).take n

/-- Decoder of the common header.  Modelled from the spec: version
(1 byte), TTL (1 byte), packet-code (1 byte), flags (2 bytes
big-endian), community (16 bytes); fails with none when the buffer is
shorter than the header (Malformed). -/
def decode_common (buf : List Nat) : Option (n2n_common_t × Nat) :=
  if 21 ≤ buf.length then
    some ({ version := buf.getD 0 0
          , ttl := buf.getD 1 0
          , pc := buf.getD 2 0
          , flags := beVal (slice buf 3 2)
          , community := slice buf 5 16 }, 21)
  else
    none

/-- Decoder of an inlined socket.  Modelled from the spec: family tag
(1 byte), 4-byte IPv4 address, 16-bit port big-endian. -/
def decode_sock (buf : List Nat) (i : Nat) : Option (n2n_sock_t × Nat) :=
  if i + 7 ≤ buf.length then
    some ({ family := buf.getD i 0
          , addr := slice buf (i + 1) 4
          , port := beVal (slice buf (i + 5) 2) }, i + 7)
  else
    none

/-- Decoder of the PACKET payload header.  Modelled from the spec:
srcMac (6), dstMac (6), then an inline socket exactly when the common
flags have SOCKET set; the opaque Ethernet tail follows. -/
def decode_PACKET (cmn : n2n_common_t) (buf : List Nat) (i : Nat) :
    Option (n2n_PACKET_t × Nat) :=
  if i + 12 ≤ buf.length then
    let src := slice buf i 6
    let dst := slice buf (i + 6) 6
    if cmn.flags &&& N2N_FLAGS_SOCKET ≠ 0 then
      match decode_sock buf (i + 12) with
      | some (sk, j) => some ({ srcMac := src, dstMac := dst, sock := sk }, j)
      | none => none
    else
      some ({ srcMac := src, dstMac := dst, sock := zero_sock }, i + 12)
  else
    none

/-- Decoder of the REGISTER payload header.  Modelled from the spec:
cookie (4), srcMac (6), dstMac (6), then an inline socket exactly when
the common flags have SOCKET set. -/
def decode_REGISTER (cmn : n2n_common_t) (buf : List Nat) (i : Nat) :
    Option (n2n_REGISTER_t × Nat) :=
  if i + 16 ≤ buf.length then
    let ck := slice buf i 4
    let src := slice buf (i + 4) 6
    let dst := slice buf (i + 10) 6
    if cmn.flags &&& N2N_FLAGS_SOCKET ≠ 0 then
      match decode_sock buf (i + 16) with
      | some (sk, j) =>
          some ({ cookie := ck, srcMac := src, dstMac := dst, sock := sk }, j)
      | none => none
    else
      some ({ cookie := ck, srcMac := src, dstMac := dst, sock := zero_sock },
            i + 16)
  else
    none

/-- Decoder of the REGISTER_SUPER payload.  Modelled from the spec:
cookie (4), edgeMac (6), optional auth block ignored beyond
byte-preservation. -/
def decode_REGISTER_SUPER (buf : List Nat) (i : Nat) :
    Option (n2n_REGISTER_SUPER_t × Nat) :=
  if i + 10 ≤ buf.length then
    some ({ cookie := slice buf i 4, edgeMac := slice buf (i + 4) 6 }, i + 10)
  else
    none

/-- Encoder of an inlined socket.  Modelled from the spec, inverse of
decode_sock. -/
def encode_sock (s : n2n_sock_t) : List Nat :=
  [s.family] ++ padTo 4 s.addr ++ [s.port / 256, s.port % 256]

/-- Encoder of the common header.  Modelled from the spec, inverse of
decode_common. -/
def encode_common (cmn : n2n_common_t) : List Nat :=
  [cmn.version, cmn.ttl, cmn.pc, cmn.flags / 256 % 256, cmn.flags % 256] ++
    padTo 16 cmn.community

/-- Encoder of the PACKET payload header.  Modelled from the spec,
inverse of decode_PACKET; the opaque tail is appended by the caller. -/
def encode_PACKET (cmn : n2n_common_t) (pkt : n2n_PACKET_t) : List Nat :=
  encode_common cmn ++ padTo 6 pkt.srcMac ++ padTo 6 pkt.dstMac ++
    (if cmn.flags &&& N2N_FLAGS_SOCKET ≠ 0 then encode_sock pkt.sock else [])

/-- Encoder of the REGISTER payload header.  Modelled from the spec,
inverse of decode_REGISTER. -/
def encode_REGISTER (cmn : n2n_common_t) (reg : n2n_REGISTER_t) : List Nat :=
  encode_common cmn ++ padTo 4 reg.cookie ++ padTo 6 reg.srcMac ++
    padTo 6 reg.dstMac ++
    (if cmn.flags &&& N2N_FLAGS_SOCKET ≠ 0 then encode_sock reg.sock else [])

/-- Encoder of the REGISTER_SUPER_ACK payload.  Modelled from the spec:
cookie, edgeMac, lifetime (16-bit big-endian), the observed public
socket, then the count of backup supernodes (no socket records follow
when the count is 0). -/
def encode_REGISTER_SUPER_ACK (cmn : n2n_common_t)
    (ack : n2n_REGISTER_SUPER_ACK_t) : List Nat :=
  encode_common cmn ++ padTo 4 ack.cookie ++ padTo 6 ack.edgeMac ++
    [ack.lifetime / 256 % 256, ack.lifetime % 256] ++
    encode_sock ack.sock ++ [ack.num_sn]

/-- Multicast and broadcast MAC test.  Modelled from the spec: the first
octet has the low bit set, or the address is all-ones; returns nonzero
exactly in those cases, as the C call sites compare against 0. -/
def is_multi_broadcast_mac (m : List Nat) : Nat :=
  if m.getD 0 0 % 2 = 1 ∨ m = [255, 255, 255, 255, 255, 255] then 1 else 0

/-- Edge directory lookup.  Modelled from the spec: the directory find
restricted to the MAC key, exactly as at the call sites in sn.c, which
pass the peer list and a MAC only (no community is passed); returns the
first record whose MAC matches. -/
def find_peer_by_mac (edges : List peer_info) (mac : List Nat) :
    Option peer_info :=
  edges.find? (fun p => p.mac_addr == mac)

/-- Socket comparison.  Modelled from the spec: the design note on
sock_equal reads the test 0 != sock_equal(a, b) in update_edge as
guarding the write with inverted sense, i.e. sock_equal returns nonzero
exactly when the two sockets are equal. -/
def sock_equal (a b : n2n_sock_t) : Nat :=
  if a = b then 1 else 0

/-- Effect of update_edge on a known record (the Known branch of
update_edge in sn.c): community and socket are overwritten when the
community differs or sock_equal is nonzero; last_seen is always set. -/
def touch_peer (scan : peer_info) (community : List Nat)
    (sender_sock : n2n_sock_t) (now : Nat) : peer_info :=
  let scan2 :=
    if community ≠ scan.community_name ∨ sock_equal sender_sock scan.sock ≠ 0
    then { scan with community_name := community, sock := sender_sock }
    else scan
  { scan2 with last_seen := now }

/-- In-place mutation of the first record with the given MAC, as the C
code mutates the record returned by find_peer_by_mac. -/
def update_edge_known (edges : List peer_info) (edgeMac community : List Nat)
    (sender_sock : n2n_sock_t) (now : Nat) : List peer_info :=
  match edges with
  | [] => []
  | scan :: rest =>
      if scan.mac_addr = edgeMac then
        touch_peer scan community sender_sock now :: rest
      else
        scan :: update_edge_known rest edgeMac community sender_sock now

/-- update_edge from sn.c: when the MAC is unknown a fresh record is
put at the head of the list; otherwise the known record is updated. -/
def update_edge (edges : List peer_info) (edgeMac community : List Nat)
    (sender_sock : n2n_sock_t) (now : Nat) : List peer_info :=
  match find_peer_by_mac edges edgeMac with
  | none =>
      { community_name := community, mac_addr := edgeMac,
        sock := sender_sock, last_seen := now } :: edges
  | some _ => update_edge_known edges edgeMac community sender_sock now

/-- try_forward from sn.c: look the destination MAC up in the
directory; when found, send the buffer to the stored socket of that
peer, counting fwd on full write and errors otherwise; when not found,
drop silently.  The ok oracle tells whether sendto_sock returned the
full packet size.  The common header argument cmn is received, as in C,
but the body never reads it. -/
def try_forward (ok : n2n_sock_t → Bool) (edges : List peer_info)
    (stats : sn_stats) (cmn : n2n_common_t) (dstMac : List Nat)
    (pktbuf : List Nat) : io_result :=
  match find_peer_by_mac edges dstMac with
  | some scan =>
      if ok scan.sock then
        { stats := { stats with fwd := stats.fwd + 1 },
          sends := [{ dest := scan.sock, buf := pktbuf }], ret := 0 }
      else
        { stats := { stats with errors := stats.errors + 1 },
          sends := [{ dest := scan.sock, buf := pktbuf }], ret := 0 }
  | none => { stats := stats, sends := [], ret := 0 }

/-- Loop body of try_broadcast from sn.c: iterate the directory in
order; for every record whose community equals the frame community and
whose MAC differs from the source MAC, send the buffer to its socket,
counting broadcast on full write and errors otherwise. -/
def try_broadcast_loop (ok : n2n_sock_t → Bool) (cmn : n2n_common_t)
    (srcMac : List Nat) (pktbuf : List Nat) :
    List peer_info → sn_stats → sn_stats × List send_rec
  | [], stats => (stats, [])
  | scan :: rest, stats =>
      if scan.community_name = cmn.community ∧ scan.mac_addr ≠ srcMac then
        let stats2 :=
          if ok scan.sock then
            { stats with broadcast := stats.broadcast + 1 }
          else
            { stats with errors := stats.errors + 1 }
        let r := try_broadcast_loop ok cmn srcMac pktbuf rest stats2
        (r.1, { dest := scan.sock, buf := pktbuf } :: r.2)
      else
        try_broadcast_loop ok cmn srcMac pktbuf rest stats

/-- try_broadcast from sn.c. -/
def try_broadcast (ok : n2n_sock_t → Bool) (edges : List peer_info)
    (stats : sn_stats) (cmn : n2n_common_t) (srcMac : List Nat)
    (pktbuf : List Nat) : io_result :=
  let r := try_broadcast_loop ok cmn srcMac pktbuf edges stats
  { stats := r.1, sends := r.2, ret := 0 }

/-- The sender address of recvfrom converted to an n2n socket, as the
three assignments sock.family = AF_INET, sock.port = ntohs(sin_port),
sock.addr.v4 = sin_addr do in sn.c. -/
def sender_n2n_sock (sender : sockaddr_in) : n2n_sock_t :=
  { family := AF_INET, port := sender.sin_port, addr := sender.sin_addr }

/-- init_cmn of the n2n library.  Modelled from the spec: fills the
common header with the given packet code, flags and community; the
version and initial TTL constants are not in src/ and are immaterial to
the claims, fixed here as 2 and 2. -/
def init_cmn (pc flags : Nat) (community : List Nat) : n2n_common_t :=
  { version := 2, ttl := 2, pc := pc, flags := flags, community := community }

/-- reg_lifetime from sn.c: the registration lifetime policy, a
constant 120 seconds. -/
def reg_lifetime (sss : sn_state) : Nat := 120

/-- The REGISTER_SUPER_ACK record built in the REGISTER_SUPER branch of
process_udp: cookie and edgeMac echoed from the request, lifetime from
reg_lifetime, the observed sender socket inlined, num_sn = 0 and an
all-zero backup slot (the base build without federation). -/
def regsuper_ack (reg : n2n_REGISTER_SUPER_t) (sender : sockaddr_in)
    (lifetime : Nat) : n2n_REGISTER_SUPER_ACK_t :=
  { cookie := reg.cookie, edgeMac := reg.edgeMac, lifetime := lifetime,
    sock := sender_n2n_sock sender, num_sn := 0, sn_bak := zero_sock }

/-- The MSG_TYPE_PACKET branch of process_udp.  Receives the common
header with the TTL already decremented and the FROM_SUPERNODE bit of
the ingress flags.  When the bit is clear the header is re-encoded with
SOCKET and FROM_SUPERNODE set and the sender socket inlined, followed
by the original opaque tail; when the bit is set the ingress buffer is
passed through unmodified.  The C code does not check the return value
of decode_PACKET; a failed decode is modelled as a drop. -/
def handle_PACKET (ok : n2n_sock_t → Bool) (s : sn_state)
    (sender : sockaddr_in) (udp_buf : List Nat) (now : Nat)
    (cmn : n2n_common_t) (idx : Nat) (from_supernode : Nat) : udp_result :=
  let stats := { s.stats with last_fwd := now }
  match decode_PACKET cmn udp_buf idx with
  | none =>
      { state := { stats := stats, edges := s.edges,
                   start_time := s.start_time }, sends := [], ret := 0 }
  | some (pkt, idx2) =>
      let rec_data : List Nat :=
        if from_supernode = 0 then
          let cmn2 := { cmn with
            flags := cmn.flags ||| (N2N_FLAGS_SOCKET ||| N2N_FLAGS_FROM_SUPERNODE) }
          let pkt2 := { pkt with sock := sender_n2n_sock sender }
          encode_PACKET cmn2 pkt2 ++ udp_buf.drop idx2
        else
          udp_buf
      if is_multi_broadcast_mac pkt.dstMac = 0 then
        let r := try_forward ok s.edges stats cmn pkt.dstMac rec_data
        { state := { stats := r.stats, edges := s.edges,
                     start_time := s.start_time }, sends := r.sends, ret := 0 }
      else
        let r := try_broadcast ok s.edges stats cmn pkt.srcMac rec_data
        { state := { stats := r.stats, edges := s.edges,
                     start_time := s.start_time }, sends := r.sends, ret := 0 }

/-- The MSG_TYPE_REGISTER branch of process_udp.  Multicast
destinations are only logged.  For a unicast destination the condition
in sn.c is 0 != (cmn.flags AND FROM_SUPERNODE): the header is re-encoded
with the sender socket inlined when the FROM_SUPERNODE bit IS set, and
the buffer is passed through unmodified when it is clear.  The C code
does not check the return value of decode_REGISTER; a failed decode is
modelled as a drop. -/
def handle_REGISTER (ok : n2n_sock_t → Bool) (s : sn_state)
    (sender : sockaddr_in) (udp_buf : List Nat) (now : Nat)
    (cmn : n2n_common_t) (idx : Nat) : udp_result :=
  let stats := { s.stats with last_fwd := now }
  match decode_REGISTER cmn udp_buf idx with
  | none =>
      { state := { stats := stats, edges := s.edges,
                   start_time := s.start_time }, sends := [], ret := 0 }
  | some (reg, idx2) =>
      if is_multi_broadcast_mac reg.dstMac = 0 then
        let rec_data : List Nat :=
          if cmn.flags &&& N2N_FLAGS_FROM_SUPERNODE ≠ 0 then
            let cmn2 := { cmn with
              flags := cmn.flags ||| (N2N_FLAGS_SOCKET ||| N2N_FLAGS_FROM_SUPERNODE) }
            let reg2 := { reg with sock := sender_n2n_sock sender }
            encode_REGISTER cmn2 reg2 ++ udp_buf.drop idx2
          else
            udp_buf
        let r := try_forward ok s.edges stats cmn reg.dstMac rec_data
        { state := { stats := r.stats, edges := s.edges,
                     start_time := s.start_time }, sends := r.sends, ret := 0 }
      else
        { state := { stats := stats, edges := s.edges,
                     start_time := s.start_time }, sends := [], ret := 0 }

/-- The MSG_TYPE_REGISTER_SUPER branch of process_udp: count the
registration, update the edge directory with the observed sender
socket, and answer with exactly one REGISTER_SUPER_ACK to the sender
(base build: no federation, so num_sn stays 0).  The C code does not
check the return value of decode_REGISTER_SUPER; a failed decode is
modelled as a drop. -/
def handle_REGISTER_SUPER (s : sn_state) (sender : sockaddr_in)
    (udp_buf : List Nat) (now : Nat) (cmn : n2n_common_t) (idx : Nat) :
    udp_result :=
  let stats := { s.stats with
                 last_reg_super := now
                 reg_super := s.stats.reg_super + 1 }
  match decode_REGISTER_SUPER udp_buf idx with
  | none =>
      { state := { stats := stats, edges := s.edges,
                   start_time := s.start_time }, sends := [], ret := 0 }
  | some (reg, _) =>
      let cmn2 := init_cmn MSG_TYPE_REGISTER_SUPER_ACK
        (N2N_FLAGS_SOCKET ||| N2N_FLAGS_FROM_SUPERNODE) cmn.community
      let ack := regsuper_ack reg sender (reg_lifetime s)
      let edges2 := update_edge s.edges reg.edgeMac cmn.community ack.sock now
      { state := { stats := stats, edges := edges2,
                   start_time := s.start_time },
        sends := [{ dest := sender_n2n_sock sender,
                    buf := encode_REGISTER_SUPER_ACK cmn2 ack }],
        ret := 0 }

/-- process_udp from sn.c: decode the common header (failure returns
-1), drop silently when TTL is 0, decrement the TTL, then dispatch on
the packet code; REGISTER_ACK and unknown codes are ignored. -/
def process_udp (ok : n2n_sock_t → Bool) (s : sn_state)
    (sender : sockaddr_in) (udp_buf : List Nat) (now : Nat) : udp_result :=
  match decode_common udp_buf with
  | none => { state := s, sends := [], ret := -1 }
  | some (cmn0, idx) =>
      let from_supernode := cmn0.flags &&& N2N_FLAGS_FROM_SUPERNODE
      if cmn0.ttl < 1 then
        { state := s, sends := [], ret := 0 }
      else
        let cmn := { cmn0 with ttl := cmn0.ttl - 1 }
        if cmn0.pc = MSG_TYPE_PACKET then
          handle_PACKET ok s sender udp_buf now cmn idx from_supernode
        else if cmn0.pc = MSG_TYPE_REGISTER then
          handle_REGISTER ok s sender udp_buf now cmn idx
        else if cmn0.pc = MSG_TYPE_REGISTER_ACK then
          { state := s, sends := [], ret := 0 }
        else if cmn0.pc = MSG_TYPE_REGISTER_SUPER then
          handle_REGISTER_SUPER s sender udp_buf now cmn idx
        else
          { state := s, sends := [], ret := 0 }

/-- process_mgmt from sn.c: build the textual snapshot, one line per
stat, and send it back; a failed send counts one error.  The mgmt_ok
flag tells whether the sendto succeeded. -/
def process_mgmt (mgmt_ok : Bool) (s : sn_state) (now : Nat) :
    sn_state × List String :=
  let lines : List String :=
    [ "----------------"
    , "uptime    " ++ toString (now - s.start_time)
    , "edges     " ++ toString s.edges.length
    , "errors    " ++ toString s.stats.errors
    , "reg_sup   " ++ toString s.stats.reg_super
    , "reg_nak   " ++ toString s.stats.reg_super_nak
    , "fwd       " ++ toString s.stats.fwd
    , "broadcast " ++ toString s.stats.broadcast
    , "last fwd  " ++ toString (now - s.stats.last_fwd) ++ " sec ago"
    , "last reg  " ++ toString (now - s.stats.last_reg_super) ++ " sec ago" ]
  if mgmt_ok then (s, lines)
  else ({ s with stats := { s.stats with errors := s.stats.errors + 1 } },
        lines)

/-- One datagram processed by the event loop: an edge-socket datagram
dispatched to process_udp or a management datagram dispatched to
process_mgmt. -/
inductive sn_event where
  | udp (sender : sockaddr_in) (buf : List Nat) (now : Nat)
  | mgmt (ok2 : Bool) (now : Nat)

/-- State transition of one event. -/
def step_event (ok : n2n_sock_t → Bool) : sn_event → sn_state → sn_state
  | sn_event.udp sender buf now, s => (process_udp ok s sender buf now).state
  | sn_event.mgmt ok2 now, s => (process_mgmt ok2 s now).1

/-- The event loop folded over a list of datagrams. -/
def run_events (ok : n2n_sock_t → Bool) : List sn_event → sn_state → sn_state
  | [], s => s
  | e :: rest, s => run_events ok rest (step_event ok e s)

/-- The state after init_sn: all counters zeroed by memset, empty edge
list. -/
def init_sn_state : sn_state :=
  { stats := { errors := 0, reg_super := 0, reg_super_nak := 0, fwd := 0,
               broadcast := 0, last_fwd := 0, last_reg_super := 0 },
    edges := [], start_time := 0 }

/-- Federation discovery state.  Modelled from the spec: the states are
DISCOVERY and READY (the numeric constants live in sn_multiple.h, not
in src/). -/
inductive snm_state where
  | discovery
  | ready
  deriving DecidableEq, Repr

/-- Per-community federation info (struct comm_info): the community
name and the number of sibling supernodes known to host it. -/
structure comm_info where
  name : List Nat
  sn_num : Nat
  deriving DecidableEq, Repr

/-- The federation-relevant fields of struct n2n_sn: the discovery
state, the start time, the SNM sequence number, the supernode list and
the two community lists. -/
structure fed_state where
  snm_discovery_state : snm_state
  start_time : Nat
  seq_num : Nat
  supernodes : List n2n_sock_t
  communities_persist : List comm_info
  communities_head : List comm_info
  deriving DecidableEq, Repr

/-- Federation header (snm_hdr_t).  Modelled from the spec: type
(REQ = 1, RSP = 2, ADV = 3), flags byte, sequence number. -/
structure snm_hdr where
  type : Nat
  flags : Nat
  seq : Nat
  deriving DecidableEq, Repr

/-- SNM message type REQ. -/
def SNM_TYPE_REQ_LIST_MSG : Nat := 1

/-- SNM message type RSP. -/
def SNM_TYPE_RSP_LIST_MSG : Nat := 2

/-- SNM message type ADV. -/
def SNM_TYPE_ADV_MSG : Nat := 3

/-- The A flag of the federation header.  Modelled from the spec: a
flag bit for request/acknowledge advertisement; the bit position is
not in src/. -/
def GET_A (flags : Nat) : Bool := flags &&& 8 != 0

/-- The E flag of the federation header.  Modelled from the spec: a
flag bit for the sender being an edge; the bit position is not in
src/. -/
def GET_E (flags : Nat) : Bool := flags &&& 16 != 0

/-- process_sn_msg from sn.c, with the helpers of sn_multiple.c, which
are not under src/, abstracted as function parameters so that every
theorem below holds for all of their behaviours: pAddComm stands for
add_new_community (returns the new head list and whether a write is
needed), pRsp for process_snm_rsp (returns the new directories and the
count of newly added supernodes), pAdv for process_snm_adv (returns the
new directories and whether the communities changed), pUpdSn for
update_and_save_supernodes.  The decoded header and the decoded REQ
content (comm_num and the first community name) arrive as inputs, none
standing for a decode_SNM_hdr failure.  Sends do not change the state
except that each send_snm_req increments seq_num; in the RSP branch one
REQ goes to each of the first sn_num supernodes of the list.  The
snm_discovery_state field is written by no branch of the C function. -/
def process_sn_msg
    (pAddComm : List comm_info → List Nat → List comm_info × Bool)
    (pRsp : List n2n_sock_t → List comm_info → List comm_info → n2n_sock_t →
      List n2n_sock_t × List comm_info × List comm_info × Nat)
    (pAdv : List n2n_sock_t → List comm_info → List comm_info → n2n_sock_t →
      List n2n_sock_t × List comm_info × List comm_info × Bool)
    (pUpdSn : List n2n_sock_t → n2n_sock_t → List n2n_sock_t)
    (s : fed_state) (sender : n2n_sock_t)
    (dec : Option (snm_hdr × Nat × List Nat)) : fed_state × Int :=
  match dec with
  | none => (s, -1)
  | some (hdr, req_comm_num, req_comm0) =>
      if hdr.type = SNM_TYPE_REQ_LIST_MSG then
        if s.snm_discovery_state ≠ snm_state.ready then (s, -1)
        else if GET_A hdr.flags then
          if GET_E hdr.flags then
            if req_comm_num ≠ 1 then (s, -1)
            else
              let r := pAddComm s.communities_head req_comm0
              ({ s with communities_head := r.1 }, 0)
          else
            ({ s with supernodes := pUpdSn s.supernodes sender }, 0)
        else if GET_E hdr.flags then (s, 0)
        else ({ s with supernodes := pUpdSn s.supernodes sender }, 0)
      else if hdr.type = SNM_TYPE_RSP_LIST_MSG then
        if s.snm_discovery_state = snm_state.ready then (s, -1)
        else
          let r := pRsp s.supernodes s.communities_head s.communities_persist
            sender
          ({ s with
             supernodes := r.1
             communities_head := r.2.1
             communities_persist := r.2.2.1
             seq_num := s.seq_num + min r.2.2.2 r.1.length }, 0)
      else if hdr.type = SNM_TYPE_ADV_MSG then
        let r := pAdv s.supernodes s.communities_head s.communities_persist
          sender
        ({ s with
           supernodes := r.1
           communities_head := r.2.1
           communities_persist := r.2.2.1 }, 0)
      else (s, 0)

/-- The while loop of communities_discovery: walk the queried
communities, and while fewer than maxc communities are hosted, add
every one with sn_num below minc to the head list through
add_new_community (abstracted as addc). -/
def discovery_add (maxc minc : Nat)
    (addc : List comm_info → List Nat → List comm_info × Bool) :
    List comm_info → Nat → List comm_info → List comm_info
  | [], _, comms => comms
  | ci :: rest, comm_num, comms =>
      if comm_num < maxc then
        if ci.sn_num < minc then
          let r := addc comms ci.name
          discovery_add maxc minc addc rest
            (if r.2 then comm_num + 1 else comm_num) r.1
        else
          discovery_add maxc minc addc rest comm_num comms
      else
        comms

/-- communities_discovery from sn.c: nothing happens before
N2N_SUPER_DISCOVERY_INTERVAL seconds have passed since start; then, in
state DISCOVERY only, the queried communities are folded onto the
persistent list, an ADV goes to every sibling, and the state becomes
READY.  The interval and the two caps live in headers outside src/ and
arrive as parameters. -/
def communities_discovery (interval maxc minc : Nat)
    (addc : List comm_info → List Nat → List comm_info × Bool)
    (s : fed_state) (nowTime : Nat) : fed_state :=
  if nowTime - s.start_time < interval then s
  else if s.snm_discovery_state = snm_state.discovery then
    let tmp := s.communities_head
    let head2 := discovery_add maxc minc addc tmp
      s.communities_persist.length s.communities_persist
    { s with
      communities_head := head2
      snm_discovery_state := snm_state.ready }
  else s

/-- Community name net1, padded to 16 bytes. -/
def comm1 : List Nat := [110, 101, 116, 49, 0, 0, 0, 0, 0, 0, 0, 0, 0, 0, 0, 0]

/-- Community name net2, padded to 16 bytes. -/
def comm2 : List Nat := [110, 101, 116, 50, 0, 0, 0, 0, 0, 0, 0, 0, 0, 0, 0, 0]

/-- MAC AA:BB:CC:00:00:01. -/
def mac1 : List Nat := [170, 187, 204, 0, 0, 1]

/-- MAC AA:BB:CC:00:00:02. -/
def mac2 : List Nat := [170, 187, 204, 0, 0, 2]

/-- Cookie DE:AD:BE:EF. -/
def cookie1 : List Nat := [222, 173, 190, 239]

/-- Socket 192.0.2.10:40000. -/
def sock1 : n2n_sock_t := { family := 2, port := 40000, addr := [192, 0, 2, 10] }

/-- Socket 192.0.2.11:40001. -/
def sock2 : n2n_sock_t := { family := 2, port := 40001, addr := [192, 0, 2, 11] }

/-- Sender address 192.0.2.10:40000 as seen by recvfrom. -/
def sender1 : sockaddr_in := { sin_addr := [192, 0, 2, 10], sin_port := 40000 }

/-- Sender address 192.0.2.11:40001 as seen by recvfrom. -/
def sender2 : sockaddr_in := { sin_addr := [192, 0, 2, 11], sin_port := 40001 }

/-- Supernode state with the edge mac1 registered in community net1 at
sock1 and all counters zero. -/
def st0 : sn_state :=
  { init_sn_state with
    edges := [{ community_name := comm1, mac_addr := mac1, sock := sock1,
                last_seen := 0 }] }

/-- Ingress PACKET with FROM_SUPERNODE set: version 2, TTL 5, flags
0x0020, community net1, srcMac mac2, dstMac mac1, 4 opaque payload
bytes. -/
def pkt_c1 : List Nat :=
  [2, 5, 3, 0, 32] ++ comm1 ++ mac2 ++ mac1 ++ [9, 9, 9, 9]

/-- Ingress REGISTER with FROM_SUPERNODE clear: version 2, TTL 5, flags
0, community net1, cookie cookie1, srcMac mac2, dstMac mac1. -/
def reg_c2a : List Nat :=
  [2, 5, 1, 0, 0] ++ comm1 ++ cookie1 ++ mac2 ++ mac1

/-- Ingress REGISTER identical to reg_c2a but with FROM_SUPERNODE set
(flags 0x0020). -/
def reg_c2b : List Nat :=
  [2, 5, 1, 0, 32] ++ comm1 ++ cookie1 ++ mac2 ++ mac1

/-- Ingress REGISTER_SUPER: version 2, TTL 5, flags 0, community net1,
cookie cookie1, edgeMac mac1. -/
def regsup_c5 : List Nat :=
  [2, 5, 5, 0, 0] ++ comm1 ++ cookie1 ++ mac1

/-- Ingress frame with TTL 0: version 2, TTL 0, PACKET, flags 0,
community net1, no payload. -/
def pkt_ttl0 : List Nat :=
  [2, 0, 3, 0, 0] ++ comm1

/-- The send list of the try_broadcast loop is exactly the directory
records with matching community and different MAC, in directory
order. -/
theorem try_broadcast_loop_sends (ok : n2n_sock_t → Bool)
    (cmn : n2n_common_t) (srcMac buf : List Nat) :
    ∀ (edges : List peer_info) (stats : sn_stats),
    (try_broadcast_loop ok cmn srcMac buf edges stats).2 =
      (edges.filter fun p =>
        decide (p.community_name = cmn.community ∧ p.mac_addr ≠ srcMac)).map
        fun p => { dest := p.sock, buf := buf } := by
  intro edges
  induction edges with
  | nil => intro stats; rfl
  | cons scan rest ih =>
      intro stats
      by_cases h : scan.community_name = cmn.community ∧ scan.mac_addr ≠ srcMac
      · simp [try_broadcast_loop, h, List.filter_cons, ih]
      · simp [try_broadcast_loop, h, List.filter_cons, ih]

/-- try_forward leaves the reg_super_nak counter unchanged. -/
theorem try_forward_nak (ok : n2n_sock_t → Bool) (edges : List peer_info)
    (stats : sn_stats) (cmn : n2n_common_t) (dstMac buf : List Nat) :
    (try_forward ok edges stats cmn dstMac buf).stats.reg_super_nak =
      stats.reg_super_nak := by
  unfold try_forward
  cases h : find_peer_by_mac edges dstMac with
  | none => rfl
  | some p => cases hok : ok p.sock <;> simp [hok]

/-- The try_broadcast loop leaves the reg_super_nak counter
unchanged. -/
theorem try_broadcast_loop_nak (ok : n2n_sock_t → Bool)
    (cmn : n2n_common_t) (srcMac buf : List Nat) :
    ∀ (edges : List peer_info) (stats : sn_stats),
    ((try_broadcast_loop ok cmn srcMac buf edges stats).1).reg_super_nak =
      stats.reg_super_nak := by
  intro edges
  induction edges with
  | nil => intro stats; rfl
  | cons scan rest ih =>
      intro stats
      by_cases h : scan.community_name = cmn.community ∧ scan.mac_addr ≠ srcMac
      · cases hok : ok scan.sock <;> simp [try_broadcast_loop, h, hok, ih]
      · simp [try_broadcast_loop, h, ih]

/-- handle_PACKET leaves the reg_super_nak counter unchanged. -/
theorem handle_PACKET_nak (ok : n2n_sock_t → Bool) (s : sn_state)
    (sender : sockaddr_in) (buf : List Nat) (now : Nat)
    (cmn : n2n_common_t) (idx fs : Nat) :
    (handle_PACKET ok s sender buf now cmn idx fs).state.stats.reg_super_nak =
      s.stats.reg_super_nak := by
  unfold handle_PACKET
  cases hp : decode_PACKET cmn buf idx with
  | none => rfl
  | some pr =>
      obtain ⟨pkt, idx2⟩ := pr
      by_cases hu : is_multi_broadcast_mac pkt.dstMac = 0
      · simp [hu, try_forward_nak]
      · simp [hu, try_broadcast, try_broadcast_loop_nak]

/-- handle_REGISTER leaves the reg_super_nak counter unchanged. -/
theorem handle_REGISTER_nak (ok : n2n_sock_t → Bool) (s : sn_state)
    (sender : sockaddr_in) (buf : List Nat) (now : Nat)
    (cmn : n2n_common_t) (idx : Nat) :
    (handle_REGISTER ok s sender buf now cmn idx).state.stats.reg_super_nak =
      s.stats.reg_super_nak := by
  unfold handle_REGISTER
  cases hr : decode_REGISTER cmn buf idx with
  | none => rfl
  | some rr =>
      obtain ⟨reg, idx2⟩ := rr
      by_cases hu : is_multi_broadcast_mac reg.dstMac = 0
      · simp [hu, try_forward_nak]
      · simp [hu]

/-- handle_REGISTER_SUPER leaves the reg_super_nak counter
unchanged. -/
theorem handle_REGISTER_SUPER_nak (s : sn_state) (sender : sockaddr_in)
    (buf : List Nat) (now : Nat) (cmn : n2n_common_t) (idx : Nat) :
    (handle_REGISTER_SUPER s sender buf now cmn idx).state.stats.reg_super_nak =
      s.stats.reg_super_nak := by
  unfold handle_REGISTER_SUPER
  cases hs : decode_REGISTER_SUPER buf idx <;> rfl

/-- process_udp leaves the reg_super_nak counter unchanged, whatever
the datagram. -/
theorem process_udp_nak (ok : n2n_sock_t → Bool) (s : sn_state)
    (sender : sockaddr_in) (buf : List Nat) (now : Nat) :
    (process_udp ok s sender buf now).state.stats.reg_super_nak =
      s.stats.reg_super_nak := by
  unfold process_udp
  cases hdec : decode_common buf with
  | none => rfl
  | some d =>
      obtain ⟨cmn0, idx⟩ := d
      simp only []
      split
      · rfl
      split
      · exact handle_PACKET_nak ok s sender buf now _ idx _
      split
      · exact handle_REGISTER_nak ok s sender buf now _ idx
      split
      · rfl
      split
      · exact handle_REGISTER_SUPER_nak s sender buf now _ idx
      · rfl

/-- process_mgmt leaves the reg_super_nak counter unchanged. -/
theorem process_mgmt_nak (b : Bool) (s : sn_state) (now : Nat) :
    (process_mgmt b s now).1.stats.reg_super_nak = s.stats.reg_super_nak := by
  cases b <;> rfl

/-- Any run of the event loop leaves the reg_super_nak counter
unchanged. -/
theorem run_events_nak (ok : n2n_sock_t → Bool) :
    ∀ (evs : List sn_event) (s : sn_state),
    (run_events ok evs s).stats.reg_super_nak = s.stats.reg_super_nak := by
  intro evs
  induction evs with
  | nil => intro s; rfl
  | cons e rest ih =>
      intro s
      cases e with
      | udp sender buf now =>
          simp [run_events, step_event, ih, process_udp_nak]
      | mgmt ok2 now =>
          simp [run_events, step_event, ih, process_mgmt_nak]

/-- Claim C1, evaluated at the failing input: for the ingress PACKET
pkt_c1, which has FROM_SUPERNODE set, TTL 5 and the registered unicast
destination mac1, process_udp emits exactly one frame and its bytes are
the ingress bytes unchanged — the TTL byte of the egress equals the
ingress TTL 5 instead of the 4 the claim requires. -/
theorem c1_from_supernode_ttl_not_decremented :
    (process_udp (fun _ => true) st0 sender2 pkt_c1 100).sends =
      [{ dest := sock1, buf := pkt_c1 }] ∧
    pkt_c1.getD 1 0 = 5 := by
  decide

/-- Claim C2, evaluated at the failing inputs: the REGISTER rewrite
condition of sn.c is inverted.  The REGISTER reg_c2a, whose ingress
FROM_SUPERNODE flag is clear, is forwarded to the registered
destination byte-for-byte unmodified (so no FROM_SUPERNODE is set on
egress), while the claim requires a rewrite exactly then; and the
REGISTER reg_c2b, whose ingress FROM_SUPERNODE flag is set, is
re-encoded to different bytes, while the claim requires an unmodified
forward then. -/
theorem c2_register_rewrite_inverted :
    (process_udp (fun _ => true) st0 sender2 reg_c2a 100).sends =
      [{ dest := sock1, buf := reg_c2a }] ∧
    beVal (slice reg_c2a 3 2) &&& N2N_FLAGS_FROM_SUPERNODE = 0 ∧
    ((process_udp (fun _ => true) st0 sender2 reg_c2b 100).sends.getD 0
      { dest := zero_sock, buf := [] }).buf ≠ reg_c2b := by
  decide

/-- Claim C3, evaluated at the failing input: the directory holds mac1
in community net1 at sock1; a completed REGISTER_SUPER for the same MAC
and community arriving from the different socket sock2 leaves the
stored socket at sock1 (only last_seen is updated), because the guard
of the Known branch of update_edge fires on sock_equal being nonzero,
i.e. on the socket being unchanged. -/
theorem c3_update_edge_keeps_stale_socket :
    update_edge st0.edges mac1 comm1 sock2 5 =
      [{ community_name := comm1, mac_addr := mac1, sock := sock1,
         last_seen := 5 }] ∧
    sock2 ≠ sock1 := by
  decide

/-- Claim C4: try_forward consults the directory through
find_peer_by_mac, which receives the MAC alone, so the result does not
depend on the community of the frame header — and a destination whose
record is stored under a different community than the frame community
is still forwarded to the stored socket of that record. -/
theorem c4_try_forward_ignores_community (ok : n2n_sock_t → Bool)
    (edges : List peer_info) (stats : sn_stats) (cmna cmnb : n2n_common_t)
    (dstMac buf : List Nat) (p : peer_info)
    (h : find_peer_by_mac edges dstMac = some p)
    (hc : p.community_name ≠ cmna.community) :
    try_forward ok edges stats cmna dstMac buf =
      try_forward ok edges stats cmnb dstMac buf ∧
    (try_forward ok edges stats cmna dstMac buf).sends =
      [{ dest := p.sock, buf := buf }] := by
  refine ⟨rfl, ?_⟩
  unfold try_forward
  rw [h]
  cases hok : ok p.sock <;> simp [hok]

/-- Witness for c4_try_forward_ignores_community: a record for mac1
stored under community net2 receives a frame whose header names
community net1. -/
theorem c4_witness :
    find_peer_by_mac
      [{ community_name := comm2, mac_addr := mac1, sock := sock1,
         last_seen := 0 }] mac1 =
      some { community_name := comm2, mac_addr := mac1, sock := sock1,
             last_seen := 0 } ∧
    ({ community_name := comm2, mac_addr := mac1, sock := sock1,
       last_seen := 0 } : peer_info).community_name ≠
      (init_cmn MSG_TYPE_PACKET 0 comm1).community ∧
    ((try_forward (fun _ => true)
        [{ community_name := comm2, mac_addr := mac1, sock := sock1,
           last_seen := 0 }] init_sn_state.stats
        (init_cmn MSG_TYPE_PACKET 0 comm1) mac1 [1, 2, 3] =
      try_forward (fun _ => true)
        [{ community_name := comm2, mac_addr := mac1, sock := sock1,
           last_seen := 0 }] init_sn_state.stats
        (init_cmn MSG_TYPE_PACKET 0 comm2) mac1 [1, 2, 3]) ∧
     (try_forward (fun _ => true)
        [{ community_name := comm2, mac_addr := mac1, sock := sock1,
           last_seen := 0 }] init_sn_state.stats
        (init_cmn MSG_TYPE_PACKET 0 comm1) mac1 [1, 2, 3]).sends =
      [{ dest := sock1, buf := [1, 2, 3] }]) :=
  ⟨by decide, by decide,
    c4_try_forward_ignores_community (fun _ => true)
      [{ community_name := comm2, mac_addr := mac1, sock := sock1,
         last_seen := 0 }] init_sn_state.stats
      (init_cmn MSG_TYPE_PACKET 0 comm1) (init_cmn MSG_TYPE_PACKET 0 comm2)
      mac1 [1, 2, 3]
      { community_name := comm2, mac_addr := mac1, sock := sock1,
        last_seen := 0 }
      (by decide) (by decide)⟩

/-- Claim C6: a call of try_broadcast attempts a send to exactly the
directory records whose community equals the frame community and whose
MAC differs from the source MAC, never to the source MAC and never
into another community. -/
theorem c6_try_broadcast_exact (ok : n2n_sock_t → Bool)
    (edges : List peer_info) (stats : sn_stats) (cmn : n2n_common_t)
    (srcMac buf : List Nat) :
    (try_broadcast ok edges stats cmn srcMac buf).sends =
      (edges.filter fun p =>
        decide (p.community_name = cmn.community ∧ p.mac_addr ≠ srcMac)).map
        fun p => { dest := p.sock, buf := buf } := by
  simpa [try_broadcast] using
    try_broadcast_loop_sends ok cmn srcMac buf edges stats

/-- Claim C7: when the destination MAC is not in the directory,
try_forward performs no send, changes no counter and returns 0. -/
theorem c7_try_forward_unknown_mac (ok : n2n_sock_t → Bool)
    (edges : List peer_info) (stats : sn_stats) (cmn : n2n_common_t)
    (dstMac buf : List Nat)
    (h : find_peer_by_mac edges dstMac = none) :
    try_forward ok edges stats cmn dstMac buf =
      { stats := stats, sends := [], ret := 0 } := by
  unfold try_forward
  rw [h]

/-- Witness for c7_try_forward_unknown_mac: the directory that knows
only mac1 receives a frame for the unregistered mac2. -/
theorem c7_witness :
    find_peer_by_mac st0.edges mac2 = none ∧
    try_forward (fun _ => true) st0.edges init_sn_state.stats
      (init_cmn MSG_TYPE_PACKET 0 comm1) mac2 [1, 2, 3] =
      { stats := init_sn_state.stats, sends := [], ret := 0 } :=
  ⟨by decide,
    c7_try_forward_unknown_mac (fun _ => true) _ _ _ _ _ (by decide)⟩

/-- Claim C8: an edge-protocol datagram whose decoded TTL is 0 changes
nothing, produces no egress frame and returns 0. -/
theorem c8_ttl_zero_silent_drop (ok : n2n_sock_t → Bool) (s : sn_state)
    (sender : sockaddr_in) (buf : List Nat) (now : Nat)
    (cmn : n2n_common_t) (idx : Nat)
    (hdec : decode_common buf = some (cmn, idx))
    (h0 : cmn.ttl = 0) :
    process_udp ok s sender buf now =
      { state := s, sends := [], ret := 0 } := by
  unfold process_udp
  rw [hdec]
  simp [h0]

/-- Witness for c8_ttl_zero_silent_drop: the PACKET pkt_ttl0 with the
TTL byte 0. -/
theorem c8_witness :
    decode_common pkt_ttl0 =
      some ({ version := 2, ttl := 0, pc := 3, flags := 0,
              community := comm1 }, 21) ∧
    process_udp (fun _ => true) st0 sender2 pkt_ttl0 100 =
      { state := st0, sends := [], ret := 0 } :=
  ⟨by decide,
    c8_ttl_zero_silent_drop (fun _ => true) st0 sender2 pkt_ttl0 100
      { version := 2, ttl := 0, pc := 3, flags := 0, community := comm1 } 21
      (by decide) (by decide)⟩

/-- Claim C5: a received REGISTER_SUPER with cookie K and edgeMac M is
answered with exactly one REGISTER_SUPER_ACK to the observed sender
socket, whose cookie is K, whose edgeMac is M, whose lifetime is 120,
whose inlined sock is the sender (IPv4 family, sender address and
port), whose flags are SOCKET and FROM_SUPERNODE, and whose num_sn is 0
in the base build without federation. -/
theorem c5_register_super_ack_contents (ok : n2n_sock_t → Bool)
    (s : sn_state) (sender : sockaddr_in) (buf : List Nat) (now : Nat)
    (cmn : n2n_common_t) (idx : Nat) (reg : n2n_REGISTER_SUPER_t)
    (idx2 : Nat)
    (hdec : decode_common buf = some (cmn, idx))
    (httl : 1 ≤ cmn.ttl)
    (hpc : cmn.pc = MSG_TYPE_REGISTER_SUPER)
    (hrs : decode_REGISTER_SUPER buf idx = some (reg, idx2)) :
    (process_udp ok s sender buf now).sends =
      [{ dest := sender_n2n_sock sender,
         buf := encode_REGISTER_SUPER_ACK
           (init_cmn MSG_TYPE_REGISTER_SUPER_ACK
             (N2N_FLAGS_SOCKET ||| N2N_FLAGS_FROM_SUPERNODE) cmn.community)
           (regsuper_ack reg sender (reg_lifetime s)) }] ∧
    (regsuper_ack reg sender (reg_lifetime s)).cookie = reg.cookie ∧
    (regsuper_ack reg sender (reg_lifetime s)).edgeMac = reg.edgeMac ∧
    (regsuper_ack reg sender (reg_lifetime s)).lifetime = 120 ∧
    (regsuper_ack reg sender (reg_lifetime s)).sock =
      { family := AF_INET, port := sender.sin_port,
        addr := sender.sin_addr } ∧
    (regsuper_ack reg sender (reg_lifetime s)).num_sn = 0 ∧
    (init_cmn MSG_TYPE_REGISTER_SUPER_ACK
      (N2N_FLAGS_SOCKET ||| N2N_FLAGS_FROM_SUPERNODE) cmn.community).flags =
      N2N_FLAGS_SOCKET ||| N2N_FLAGS_FROM_SUPERNODE := by
  have h1 : ¬ cmn.ttl < 1 := by omega
  refine ⟨?_, rfl, rfl, rfl, rfl, rfl, rfl⟩
  unfold process_udp handle_REGISTER_SUPER
  rw [hdec]
  simp [h1, hpc, MSG_TYPE_PACKET, MSG_TYPE_REGISTER, MSG_TYPE_REGISTER_ACK,
    MSG_TYPE_REGISTER_SUPER, hrs]

/-- Witness for c5_register_super_ack_contents: scenario S1 of the
spec, edge mac1 in net1 with cookie cookie1 from 192.0.2.10:40000. -/
theorem c5_witness :
    decode_common regsup_c5 =
      some ({ version := 2, ttl := 5, pc := 5, flags := 0,
              community := comm1 }, 21) ∧
    decode_REGISTER_SUPER regsup_c5 21 =
      some ({ cookie := cookie1, edgeMac := mac1 }, 31) ∧
    ((process_udp (fun _ => true) st0 sender1 regsup_c5 100).sends =
      [{ dest := sender_n2n_sock sender1,
         buf := encode_REGISTER_SUPER_ACK
           (init_cmn MSG_TYPE_REGISTER_SUPER_ACK
             (N2N_FLAGS_SOCKET ||| N2N_FLAGS_FROM_SUPERNODE) comm1)
           (regsuper_ack { cookie := cookie1, edgeMac := mac1 } sender1
             120) }] ∧
     (regsuper_ack { cookie := cookie1, edgeMac := mac1 } sender1
       120).cookie = cookie1 ∧
     (regsuper_ack { cookie := cookie1, edgeMac := mac1 } sender1
       120).edgeMac = mac1 ∧
     (regsuper_ack { cookie := cookie1, edgeMac := mac1 } sender1
       120).lifetime = 120 ∧
     (regsuper_ack { cookie := cookie1, edgeMac := mac1 } sender1
       120).sock =
       { family := AF_INET, port := sender1.sin_port,
         addr := sender1.sin_addr } ∧
     (regsuper_ack { cookie := cookie1, edgeMac := mac1 } sender1
       120).num_sn = 0 ∧
     (init_cmn MSG_TYPE_REGISTER_SUPER_ACK
       (N2N_FLAGS_SOCKET ||| N2N_FLAGS_FROM_SUPERNODE) comm1).flags =
       N2N_FLAGS_SOCKET ||| N2N_FLAGS_FROM_SUPERNODE) :=
  ⟨by decide, by decide,
    c5_register_super_ack_contents (fun _ => true) st0 sender1 regsup_c5 100
      { version := 2, ttl := 5, pc := 5, flags := 0, community := comm1 } 21
      { cookie := cookie1, edgeMac := mac1 } 31
      (by decide) (by decide) (by decide) (by decide)⟩

/-- Claim C9: the federation state READY is terminal.  For every state
whose snm_discovery_state is READY, process_sn_msg leaves it READY for
every message (REQ, RSP, ADV or undecodable) and for all behaviours of
the sn_multiple helpers, and the discovery maintenance
communities_discovery leaves it READY for every time and cap
configuration. -/
theorem c9_ready_is_terminal
    (pAddComm : List comm_info → List Nat → List comm_info × Bool)
    (pRsp : List n2n_sock_t → List comm_info → List comm_info →
      n2n_sock_t → List n2n_sock_t × List comm_info × List comm_info × Nat)
    (pAdv : List n2n_sock_t → List comm_info → List comm_info →
      n2n_sock_t → List n2n_sock_t × List comm_info × List comm_info × Bool)
    (pUpdSn : List n2n_sock_t → n2n_sock_t → List n2n_sock_t)
    (s : fed_state) (sender : n2n_sock_t)
    (dec : Option (snm_hdr × Nat × List Nat))
    (interval maxc minc : Nat)
    (addc : List comm_info → List Nat → List comm_info × Bool)
    (nowTime : Nat)
    (h : s.snm_discovery_state = snm_state.ready) :
    (process_sn_msg pAddComm pRsp pAdv pUpdSn s sender
      dec).1.snm_discovery_state = snm_state.ready ∧
    (communities_discovery interval maxc minc addc s
      nowTime).snm_discovery_state = snm_state.ready := by
  constructor
  · cases dec with
    | none => exact h
    | some d =>
        obtain ⟨hdr, n, c⟩ := d
        simp only [process_sn_msg]
        split_ifs <;> simp [h]
  · unfold communities_discovery
    split_ifs with h1 h2
    · exact h
    · simp
    · exact h

/-- Witness for c9_ready_is_terminal: a READY state with empty
directories, an REQ header and trivial helper behaviours. -/
theorem c9_witness :
    ({ snm_discovery_state := snm_state.ready, start_time := 0,
       seq_num := 0, supernodes := [], communities_persist := [],
       communities_head := [] } : fed_state).snm_discovery_state =
      snm_state.ready ∧
    ((process_sn_msg (fun l _ => (l, false)) (fun a b c _ => (a, b, c, 0))
      (fun a b c _ => (a, b, c, false)) (fun l _ => l)
      { snm_discovery_state := snm_state.ready, start_time := 0,
        seq_num := 0, supernodes := [], communities_persist := [],
        communities_head := [] } sock1
      (some ({ type := 1, flags := 0, seq := 0 }, 1,
        [])) ).1.snm_discovery_state = snm_state.ready ∧
     (communities_discovery 0 0 0 (fun l _ => (l, false))
       { snm_discovery_state := snm_state.ready, start_time := 0,
         seq_num := 0, supernodes := [], communities_persist := [],
         communities_head := [] } 0).snm_discovery_state =
       snm_state.ready) :=
  ⟨rfl,
    c9_ready_is_terminal (fun l _ => (l, false)) (fun a b c _ => (a, b, c, 0))
      (fun a b c _ => (a, b, c, false)) (fun l _ => l)
      { snm_discovery_state := snm_state.ready, start_time := 0,
        seq_num := 0, supernodes := [], communities_persist := [],
        communities_head := [] } sock1
      (some ({ type := 1, flags := 0, seq := 0 }, 1, []))
      0 0 0 (fun l _ => (l, false)) 0 rfl⟩

/-- Claim C10: no operation of the supernode increments reg_super_nak.
After any sequence of processed edge and management datagrams starting
from init_sn, the counter is 0 and the reg_nak line of the management
reply reports 0. -/
theorem c10_reg_super_nak_always_zero (ok : n2n_sock_t → Bool)
    (evs : List sn_event) (b : Bool) (now : Nat) :
    (run_events ok evs init_sn_state).stats.reg_super_nak = 0 ∧
    (process_mgmt b (run_events ok evs init_sn_state) now).2.getD 5 "" =
      "reg_nak   0" := by
  have h0 : (run_events ok evs init_sn_state).stats.reg_super_nak = 0 := by
    simpa using run_events_nak ok evs init_sn_state
  refine ⟨h0, ?_⟩
  cases b <;> simp [process_mgmt, h0, List.getD] <;> rfl

end N2NSN



